import Mathlib

/-!
Verification development for the march-madness scraping and task-management
subsystem.  The definitions below are a shallow embedding of the Python
sources (scraper/task_manager.py, scraper/aggregator.py, scraper/tr_scraper.py,
scraper/scores_scraper.py, scraper/utils.py).  Timestamps are modelled as
integers at second granularity: the Python code stores datetime.now().isoformat()
strings and parses them back with datetime.fromisoformat, which always succeeds
on values the code itself wrote, so the ValueError branch of cleanup_old_tasks
is unreachable in the model.
-/

namespace Scraper

/-- Status of a background task; TaskStatus in scraper/task_manager.py. -/
inductive TaskStatus where
  | pending
  | running
  | success
  | failure
  | cancelled
deriving DecidableEq, Repr

/-- A background task; class Task in scraper/task_manager.py.  The id,
task_type, params and created_at fields play no role in any claim and are
omitted; the remaining fields are exactly those the Python constructor sets. -/
structure Task where
  status : TaskStatus
  started_at : Option Int
  completed_at : Option Int
  error : Option String
  progress : Int
  cancelled : Bool
deriving DecidableEq, Repr

/-- A freshly constructed task, as initialised by Task.__init__. -/
def newTask : Task :=
  { status := TaskStatus.pending
    started_at := none
    completed_at := none
    error := none
    progress := 0
    cancelled := false }

/-- Task.start: unconditionally sets status to RUNNING and stamps started_at. -/
def Task.start (t : Task) (now : Int) : Task :=
  { t with status := TaskStatus.running, started_at := some now }

/-- Task.complete: unless the status is CANCELLED, sets status to SUCCESS or
FAILURE according to the success flag, stamps completed_at, stores the error
argument and sets progress to 100. -/
def Task.complete (t : Task) (success : Bool) (error : Option String) (now : Int) : Task :=
  if t.status ≠ TaskStatus.cancelled then
    { t with
      status := if success then TaskStatus.success else TaskStatus.failure
      completed_at := some now
      error := error
      progress := 100 }
  else t

/-- Task.update_progress: unless the status is CANCELLED, sets progress to
min(99, max(0, progress)). -/
def Task.update_progress (t : Task) (progress : Int) : Task :=
  if t.status ≠ TaskStatus.cancelled then
    { t with progress := min 99 (max 0 progress) }
  else t

/-- Task.cancel: if the status is PENDING or RUNNING, sets the cancelled flag,
the CANCELLED status, completed_at and the fixed error text; otherwise no-op. -/
def Task.cancel (t : Task) (now : Int) : Task :=
  if t.status = TaskStatus.pending ∨ t.status = TaskStatus.running then
    { t with
      cancelled := true
      status := TaskStatus.cancelled
      completed_at := some now
      error := some "Task cancelled by user." }
  else t

/-- One mutation of a task, tagging the four mutating methods of class Task. -/
inductive TaskOp where
  | opStart (now : Int)
  | opComplete (success : Bool) (error : Option String) (now : Int)
  | opUpdate (progress : Int)
  | opCancel (now : Int)

/-- Apply one task mutation. -/
def applyOp (t : Task) : TaskOp → Task
  | TaskOp.opStart now => t.start now
  | TaskOp.opComplete s e now => t.complete s e now
  | TaskOp.opUpdate p => t.update_progress p
  | TaskOp.opCancel now => t.cancel now

/-- Apply a sequence of task mutations in order. -/
def applyOps (t : Task) (ops : List TaskOp) : Task :=
  ops.foldl applyOp t

/-- True when cleanup_old_tasks would delete the task at time now: the task has
a completion timestamp more than 3600 seconds in the past.  The status of the
task is not consulted, mirroring the source. -/
def taskExpired (now : Int) (t : Task) : Bool :=
  match t.completed_at with
  | some c => now - c > 3600
  | none => false

/-- cleanup_old_tasks in scraper/task_manager.py: collects every registry entry
whose completed_at parses and lies more than one hour in the past, then deletes
exactly those entries; the net effect on the id-to-task mapping is a filter. -/
def cleanup_old_tasks (now : Int) (reg : List (String × Task)) : List (String × Task) :=
  reg.filter (fun p => !(taskExpired now p.2))

/-- One row of a tabular per-year dataset: the value of its Team column plus
the remaining named cells.  A cell name absent from the list models a NaN
entry of the pandas DataFrame; the Team column itself is held in the team
field, since every dataset the aggregator touches is keyed by Team. -/
structure Row where
  team : String
  cells : List (String × String)
deriving DecidableEq, Repr

/-- A tabular dataset (pandas DataFrame keyed by Team) as its list of rows;
DataFrame.empty corresponds to rows = []. -/
structure DF where
  rows : List Row
deriving DecidableEq, Repr

/-- The flat-file data directory as an association list from file name to
stored dataset; write prepends, lookup takes the most recent entry, matching
whole-file overwrite. -/
abbrev Store := List (String × DF)

/-- Errors that aggregate_year_data can surface: the FileNotFoundError that
pandas.read_csv raises for an absent file, and the MissingDatasetError that
aggregator.py raises for a dataset that reads back empty. -/
inductive AggError where
  | fileNotFound (path : String)
  | missingDataset (msg : String)
deriving DecidableEq, Repr

/-- The configured data directory (settings.DATA_PATH, with the absolute
BASE_DIR prefix abstracted away). -/
def DATA_PATH : String := "data"

/-- read_df_from_csv in scraper/utils.py: pd.read_csv of DATA_PATH/file_name;
an absent file makes pandas raise FileNotFoundError naming the path. -/
def read_df_from_csv (store : Store) (file_name : String) : Except AggError DF :=
  match store.lookup file_name with
  | some d => Except.ok d
  | none => Except.error (AggError.fileNotFound (DATA_PATH ++ "/" ++ file_name))

/-- write_df_to_csv in scraper/utils.py: overwrite DATA_PATH/file_name with
the dataset. -/
def write_df_to_csv (store : Store) (file_name : String) (d : DF) : Store :=
  (file_name, d) :: store

/-- TEAM_ALIASES in scraper/aggregator.py: canonical name paired with its
known variants, in source insertion order. -/
def TEAM_ALIASES : List (String × List String) :=
  [("Michigan St.", ["Michigan St.", "Michigan State", "Mich St", "MSU"]),
   ("Duke", ["Duke"]),
   ("UNC", ["North Carolina", "UNC", "Tar Heels"])]

/-- The whitespace characters Python str.strip removes (the ASCII ones; the
scraped fields contain no other unicode whitespace). -/
def pyWhitespaceChars : List Char := [' ', '\t', '\n', '\r', '\x0b', '\x0c']

/-- Whether a character is Python whitespace. -/
def isPyWhitespace (c : Char) : Bool := pyWhitespaceChars.contains c

/-- str.strip on a character list: drop whitespace from both ends. -/
def stripChars (l : List Char) : List Char :=
  ((l.dropWhile isPyWhitespace).reverse.dropWhile isPyWhitespace).reverse

/-- Python str.strip on a string. -/
def pyStrip (s : String) : String := String.mk (stripChars s.data)

/-- Whether the first character list is an initial segment of the second. -/
def charsLeadWith : List Char → List Char → Bool
  | [], _ => true
  | _ :: _, [] => false
  | a :: as, b :: bs => a == b && charsLeadWith as bs

/-- Python s.startswith(p). -/
def pyStartsWith (s p : String) : Bool := charsLeadWith p.data s.data

/-- Python slicing s[n:] (by code point, as Python slices). -/
def pyDrop (s : String) (n : Nat) : String := String.mk (s.data.drop n)

/-- standardize_team_name in scraper/aggregator.py: return the first canonical
name whose alias set contains the stripped input, else the stripped input. -/
def standardize_team_name (team_name : String) : String :=
  match TEAM_ALIASES.find? (fun p => p.2.contains (pyStrip team_name)) with
  | some p => p.1
  | none => pyStrip team_name

/-- pd.merge(left, right, on="Team", how="outer"): each left row is combined
with every right row sharing its Team key (cells concatenated), a left row
with no match keeps only its own cells (right columns NaN), and right rows
matching no left key are appended after the left block with their left
columns NaN. -/
def mergeOuter (l r : DF) : DF :=
  DF.mk
    (((l.rows.map (fun lr =>
        match r.rows.filter (fun rr => rr.team == lr.team) with
        | [] => [lr]
        | ms => ms.map (fun rr => Row.mk lr.team (lr.cells ++ rr.cells)))).flatten)
      ++ r.rows.filter (fun rr => l.rows.all (fun lr => lr.team != rr.team)))

/-- The Team-column rewrite in aggregate_year_data:
combined["Team"].apply(standardize_team_name). -/
def standardizeTeamColumn (d : DF) : DF :=
  DF.mk (d.rows.map (fun r => Row.mk (standardize_team_name r.team) r.cells))

/-- File name of the per-year TRank dataset. -/
def trankFile (year : Int) : String := "TRank" ++ toString year ++ ".csv"

/-- File name of the per-year TeamRankings ratings dataset. -/
def ratingsFile (year : Int) : String := "TeamRankingsRatings" ++ toString year ++ ".csv"

/-- File name of the per-year TeamRankings stats dataset. -/
def statsFile (year : Int) : String := "TeamRankingsStats" ++ toString year ++ ".csv"

/-- File name of the per-year combined dataset. -/
def combinedFile (year : Int) : String := "Combined" ++ toString year ++ ".csv"

/-- The MissingDatasetError message built in aggregate_year_data. -/
def missingMsg (file : String) (year : Int) : String :=
  "Dataset \x27" ++ file ++ "\x27 for year " ++ toString year ++
    " is missing. Please (re)scrape it."

/-- aggregate_year_data in scraper/aggregator.py: read the three per-year
datasets in order TRank, Ratings, Stats, raising MissingDatasetError when one
reads back empty (and letting the pandas read error propagate when a file is
absent); then outer-merge on Team twice, standardize the Team column, persist
as Combined year and return the combined dataset together with the resulting
store. -/
def aggregate_year_data (store : Store) (year : Int) : Except AggError DF × Store :=
  match read_df_from_csv store (trankFile year) with
  | Except.error e => (Except.error e, store)
  | Except.ok df_trank =>
    if df_trank.rows.isEmpty then
      (Except.error (AggError.missingDataset (missingMsg (trankFile year) year)), store)
    else
      match read_df_from_csv store (ratingsFile year) with
      | Except.error e => (Except.error e, store)
      | Except.ok df_ratings =>
        if df_ratings.rows.isEmpty then
          (Except.error (AggError.missingDataset (missingMsg (ratingsFile year) year)), store)
        else
          match read_df_from_csv store (statsFile year) with
          | Except.error e => (Except.error e, store)
          | Except.ok df_stats =>
            if df_stats.rows.isEmpty then
              (Except.error (AggError.missingDataset (missingMsg (statsFile year) year)), store)
            else
              let combined :=
                standardizeTeamColumn (mergeOuter (mergeOuter df_trank df_ratings) df_stats)
              (Except.ok combined, write_df_to_csv store (combinedFile year) combined)

/-- Python range(s, e + 1) as a list of integers. -/
def pyRange (s e : Int) : List Int :=
  (List.range (e + 1 - s).toNat).map (fun (i : Nat) => s + (i : Int))

/-- The year list computed by the scrapers:
[y for y in range(start_year, end_year + 1) if y != 2020]. -/
def years_to_process (start_year end_year : Int) : List Int :=
  (pyRange start_year end_year).filter (fun y => y != 2020)

/-- total_years in the scrapers: the length of the year list after the 2020
exclusion; this is the denominator of every per-year progress update. -/
def total_years (start_year end_year : Int) : Nat :=
  (years_to_process start_year end_year).length

/-- The year loop of aggregate_all_years: aggregate each year in order and
re-raise the first error, abandoning the remaining years. -/
def aggLoop : Store → List Int → Except AggError Unit × Store
  | st, [] => (Except.ok (), st)
  | st, y :: rest =>
    match aggregate_year_data st y with
    | (Except.ok _, st2) => aggLoop st2 rest
    | (Except.error e, st2) => (Except.error e, st2)

/-- aggregate_all_years in scraper/aggregator.py: iterate over
range(start_year, end_year + 1) - with no exclusion of 2020 - and stop at the
first failing year. -/
def aggregate_all_years (store : Store) (start_year end_year : Int) :
    Except AggError Unit × Store :=
  aggLoop store (pyRange start_year end_year)

/-- A one-row dataset used as a concrete non-empty per-year table. -/
def nonemptyDF : DF := DF.mk [Row.mk "Duke" [("points-per-game", "80.1")]]

/-- A store holding the TRank and Stats datasets for 2021 but no Ratings
dataset, the scenario of the C3 sources. -/
def c3Store : Store := [(trankFile 2021, nonemptyDF), (statsFile 2021, nonemptyDF)]

/-- A store holding all three 2021 per-year datasets, non-empty. -/
def c3FullStore : Store :=
  [(trankFile 2021, nonemptyDF), (ratingsFile 2021, nonemptyDF), (statsFile 2021, nonemptyDF)]

/-- True when an aggregation outcome is a MissingDatasetError. -/
def isMissingDatasetResult : Except AggError DF × Store → Bool
  | (Except.error (AggError.missingDataset _), _) => true
  | _ => false

/-- A store holding all three per-year datasets for the year 2020, non-empty. -/
def c6Store : Store :=
  [(trankFile 2020, nonemptyDF), (ratingsFile 2020, nonemptyDF), (statsFile 2020, nonemptyDF)]

/-- A parsed HTML element as BeautifulSoup exposes it to the scores scraper:
its tag name, its class attribute, the text that get_text() returns for it,
and its child elements (find_all(True, recursive=False)). -/
inductive DomNode where
  | mk (tag : String) (classes : List String) (text : String) (children : List DomNode)

/-- Tag name of a DOM node. -/
def DomNode.tag : DomNode → String
  | DomNode.mk t _ _ _ => t

/-- Class attribute of a DOM node. -/
def DomNode.classes : DomNode → List String
  | DomNode.mk _ c _ _ => c

/-- The get_text() value of a DOM node. -/
def DomNode.text : DomNode → String
  | DomNode.mk _ _ x _ => x

/-- Direct child elements of a DOM node. -/
def DomNode.children : DomNode → List DomNode
  | DomNode.mk _ _ _ c => c

/-- BeautifulSoup find(tag) over a list of sibling subtrees: the first node
with the given tag name in document (depth-first preorder) order. -/
def findTagIn (t : String) : List DomNode → Option DomNode
  | [] => none
  | DomNode.mk tg cl tx ch :: rest =>
    if tg = t then some (DomNode.mk tg cl tx ch)
    else
      match findTagIn t ch with
      | some m => some m
      | none => findTagIn t rest

/-- A seed or score field of a parsed team: Python None, an int, or the raw
text. -/
inductive FieldVal where
  | null
  | intVal (n : Int)
  | strVal (s : String)
deriving DecidableEq, Repr

/-- The value of a non-empty all-digit character list, none otherwise. -/
def decDigits? (l : List Char) : Option Nat :=
  if l.isEmpty then none
  else if l.all (fun c => '0' ≤ c && c ≤ '9') then
    some (l.foldl (fun acc c => acc * 10 + (c.toNat - 48)) 0)
  else none

/-- Python int(s) on a string, as the scores scraper applies it to stripped
seed and score text: surrounding whitespace tolerated, then an optional sign
followed by decimal digits; underscore grouping and non-ASCII digits are not
modelled, none of the scraped fields contain them. -/
def pyInt? (s : String) : Option Int :=
  match stripChars s.data with
  | '-' :: rest => (decDigits? rest).map (fun n => -(n : Int))
  | '+' :: rest => (decDigits? rest).map (fun n => (n : Int))
  | t => (decDigits? t).map (fun n => (n : Int))

/-- The seed and score conversion at the end of _parse_team:
int(field) if field else None, with the ValueError branch keeping the string:
an empty string becomes None, numeric text becomes an int, any other text is
kept as-is. -/
def convertNumeric : FieldVal → FieldVal
  | FieldVal.strVal s =>
    if s = "" then FieldVal.null
    else
      match pyInt? s with
      | some n => FieldVal.intVal n
      | none => FieldVal.strVal s
  | v => v

/-- A parsed team of a tournament game (scores_scraper._parse_team): the team
dictionary as returned, whose name is always a non-empty string. -/
structure TeamRec where
  seed : FieldVal
  name : String
  score : FieldVal
  won : Bool
deriving DecidableEq, Repr

/-- _parse_team in scraper/scores_scraper.py: with three or more children the
first three supply stripped seed, name and score text; with exactly two they
supply seed and name and the score stays None; with fewer the parse yields no
team.  An empty name yields no team; finally seed and score are converted by
convertNumeric.  The won flag records whether the class list contains
winner. -/
def _parse_team (team_node : DomNode) : Option TeamRec :=
  let won := team_node.classes.contains "winner"
  match team_node.children with
  | c0 :: c1 :: c2 :: _ =>
    let nameS := pyStrip c1.text
    if nameS = "" then none
    else
      some (TeamRec.mk (convertNumeric (FieldVal.strVal (pyStrip c0.text))) nameS
        (convertNumeric (FieldVal.strVal (pyStrip c2.text))) won)
  | [c0, c1] =>
    let nameS := pyStrip c1.text
    if nameS = "" then none
    else
      some (TeamRec.mk (convertNumeric (FieldVal.strVal (pyStrip c0.text))) nameS
        FieldVal.null won)
  | _ => none

/-- A parsed tournament game (scores_scraper._parse_game) as returned: both
teams present, location optional. -/
structure GameRec where
  year : Int
  bracket : String
  round : Int
  team_a : TeamRec
  team_b : TeamRec
  location : Option String
deriving DecidableEq, Repr

/-- _parse_game in scraper/scores_scraper.py: with fewer than two children
the parse yields no game; otherwise the first two children are parsed as
teams, a third child (when present) supplies the location when it contains a
link whose text starts with the literal prefix at-space (the prefix is
stripped and the rest stripped of whitespace), any other third-child shape
leaving the location None; the game is returned only when both team parses
succeeded. -/
def _parse_game (year : Int) (bracket_id : String) (round_number : Int)
    (game_node : DomNode) : Option GameRec :=
  match game_node.children with
  | c0 :: c1 :: rest =>
    let ta := _parse_team c0
    let tb := _parse_team c1
    let location : Option String :=
      match rest with
      | c2 :: _ =>
        match findTagIn "a" c2.children with
        | some link =>
          if pyStartsWith link.text "at " then some (pyStrip (pyDrop link.text 3)) else none
        | none => none
      | [] => none
    match ta, tb with
    | some a, some b => some (GameRec.mk year bracket_id round_number a b location)
    | _, _ => none
  | _ => none

/-- A leaf element carrying only text. -/
def leafNode (text : String) : DomNode := DomNode.mk "span" [] text []

/-- A well-formed winning team node: seed 1, Duke, 80 points. -/
def teamNodeA : DomNode :=
  DomNode.mk "div" ["winner"] "" [leafNode "1", leafNode "Duke", leafNode "80"]

/-- A well-formed losing team node: seed 16, UNC, 60 points. -/
def teamNodeB : DomNode :=
  DomNode.mk "div" [] "" [leafNode "16", leafNode "UNC", leafNode "60"]

/-- A game node with exactly two children: two teams and no location node. -/
def gameNode2 : DomNode := DomNode.mk "div" [] "" [teamNodeA, teamNodeB]

/-- A team node with a single child field (a seed and no name). -/
def c9SeedOnlyNode : DomNode := DomNode.mk "div" [] "" [leafNode "7"]

/-- A team node whose seed and score text are both empty. -/
def c9EmptyFieldsNode : DomNode :=
  DomNode.mk "div" [] "" [leafNode "", leafNode "Duke", leafNode ""]

/-- Python exceptions the pipelines raise or catch: DataScrapingError,
TaskCancelledError, and any other exception. -/
inductive PyError where
  | dataScraping (msg : String)
  | taskCancelled (msg : String)
  | otherErr (msg : String)
deriving DecidableEq, Repr

/-- str(e) of a pipeline exception. -/
def PyError.text : PyError → String
  | PyError.dataScraping m => m
  | PyError.taskCancelled m => m
  | PyError.otherErr m => m

/-- Outcome of process_single_year_func for one year of _scrape_generic:
returned True and wrote the per-year file, returned False for a year with no
usable rows (nothing written), raised a DataScrapingError, raised an
unexpected exception, or raised TaskCancelledError from the inner item
loop. -/
inductive YearResult where
  | wrote
  | emptyData
  | scrapeFail (msg : String)
  | unexpectedFail (msg : String)
  | cancelSignal (msg : String)
deriving DecidableEq, Repr

/-- Whether the year ended with its file written. -/
def YearResult.isWrote : YearResult → Bool
  | YearResult.wrote => true
  | _ => false

/-- Environment of one _scrape_generic run: whether opening the session fails
(a requests.RequestException outside the per-year boundary), the outcome of
each year, and the task cancelled flag as observed at the checkpoint before
the i-th year (the flag is set concurrently by external cancel calls, so it
is modelled as an observation schedule). -/
structure ScrapeEnv where
  sessionFails : Option String
  yearResult : Int → YearResult
  cancelledBefore : Nat → Bool

/-- Result of a _scrape_generic run: the exception it raised if any, the task
as left by the progress updates, and the years whose per-year files were
written, in order. -/
structure ScrapeOut where
  result : Except PyError Unit
  task : Task
  written : List Int

/-- The per-year progress value int(((k) / total) * 100), modelled with exact
integer division; the float computation of the source coincides with it at
k = total (both give exactly 100, since total/total is exactly 1.0) and may
differ by at most one at interior points, on which no claim depends. -/
def progressPercent (k total : Nat) : Int := ((k * 100 / total : Nat) : Int)

/-- The year loop of _scrape_generic in scraper/tr_scraper.py: before each
year check cancellation and raise TaskCancelledError if set; run the year,
re-raising TaskCancelledError, counting a written year on True, and absorbing
DataScrapingError and unexpected exceptions (the year is skipped); then
update progress from the years attempted over the post-exclusion total. -/
def scrapeLoop (env : ScrapeEnv) (total : Nat) :
    List Int → Nat → Task → List Int → ScrapeOut
  | [], _, task, written => ScrapeOut.mk (Except.ok ()) task written
  | y :: rest, i, task, written =>
    if env.cancelledBefore i then
      ScrapeOut.mk (Except.error (PyError.taskCancelled "Task cancelled during scraping loop."))
        task written
    else
      match env.yearResult y with
      | YearResult.cancelSignal m =>
        ScrapeOut.mk (Except.error (PyError.taskCancelled m)) task written
      | YearResult.wrote =>
        scrapeLoop env total rest (i + 1)
          (task.update_progress (progressPercent (i + 1) total)) (written ++ [y])
      | YearResult.emptyData =>
        scrapeLoop env total rest (i + 1)
          (task.update_progress (progressPercent (i + 1) total)) written
      | YearResult.scrapeFail _ =>
        scrapeLoop env total rest (i + 1)
          (task.update_progress (progressPercent (i + 1) total)) written
      | YearResult.unexpectedFail _ =>
        scrapeLoop env total rest (i + 1)
          (task.update_progress (progressPercent (i + 1) total)) written

/-- _scrape_generic in scraper/tr_scraper.py (the shared driver of the Stats
and Ratings pipelines): a session-opening failure is wrapped into a
DataScrapingError by the outer handler and aborts the pipeline before any
year runs; otherwise the year loop runs over the 2020-excluded year list with
its length as progress denominator. -/
def _scrape_generic (env : ScrapeEnv) (start_year end_year : Int) (task : Task) : ScrapeOut :=
  match env.sessionFails with
  | some m =>
    ScrapeOut.mk (Except.error (PyError.dataScraping ("Network error during scraping: " ++ m)))
      task []
  | none =>
    scrapeLoop env (total_years start_year end_year) (years_to_process start_year end_year)
      0 task []

/-- run_task_in_thread in scraper/task_manager.py (the body of wrapped_func,
run sequentially): if the task was cancelled before starting, nothing runs;
otherwise start the task, run the pipeline, and on normal return complete
with Success unless the task was cancelled meanwhile; a TaskCancelledError
ends the worker quietly; any other exception completes the task with Failure
and the exception text, unless the status is already Cancelled. -/
def run_task_in_thread (pipe : Task → ScrapeOut) (task : Task) (nowStart nowEnd : Int) :
    Task × List Int :=
  if task.cancelled then (task, [])
  else
    let out := pipe (task.start nowStart)
    match out.result with
    | Except.ok _ =>
      if out.task.cancelled then (out.task, out.written)
      else (out.task.complete true none nowEnd, out.written)
    | Except.error (PyError.taskCancelled _) => (out.task, out.written)
    | Except.error e =>
      if out.task.status = TaskStatus.cancelled then (out.task, out.written)
      else (out.task.complete false (some (PyError.text e)) nowEnd, out.written)

/-- Environment of one scrape_scores run: session failure, the result of
_scrape_year_scores per year, and the observed cancelled flag at the outer
checkpoint and at the inner checkpoint of _process_single_year_scores. -/
structure ScoresEnv where
  sessionFails : Option String
  yearGames : Int → Except PyError (List GameRec)
  cancelledBefore : Nat → Bool
  cancelledInner : Nat → Bool

/-- _process_single_year_scores in scraper/scores_scraper.py: raise
TaskCancelledError when the flag is observed set; re-raise a
TaskCancelledError from the year scrape; absorb DataScrapingError and any
unexpected exception as None (year skipped); an empty game list is also
None. -/
def processSingleYearScores (cancelledHere : Bool)
    (fetched : Except PyError (List GameRec)) : Except PyError (Option (List GameRec)) :=
  if cancelledHere then
    Except.error (PyError.taskCancelled "Task cancelled before processing scores for year.")
  else
    match fetched with
    | Except.ok gs => if gs.isEmpty then Except.ok none else Except.ok (some gs)
    | Except.error (PyError.taskCancelled m) => Except.error (PyError.taskCancelled m)
    | Except.error _ => Except.ok none

/-- Result of a scrape_scores run: the exception raised if any, the task, the
years whose Scores file was written, and whether AllScores was written. -/
structure ScoresOut where
  result : Except PyError Unit
  task : Task
  writtenYears : List Int
  wroteAllScores : Bool
deriving Repr

/-- The year loop of scrape_scores: check cancellation before each year,
process the year, extend the all-games accumulator and write the per-year
file when games came back, then update progress whether or not the year
succeeded. -/
def scoresLoop (env : ScoresEnv) (total : Nat) :
    List Int → Nat → Task → List GameRec → List Int →
      Except PyError Unit × Task × List GameRec × List Int
  | [], _, task, acc, written => (Except.ok (), task, acc, written)
  | y :: rest, i, task, acc, written =>
    if env.cancelledBefore i then
      (Except.error (PyError.taskCancelled "Task cancelled during Scores scraping loop."),
        task, acc, written)
    else
      match processSingleYearScores (env.cancelledInner i) (env.yearGames y) with
      | Except.error e => (Except.error e, task, acc, written)
      | Except.ok none =>
        scoresLoop env total rest (i + 1)
          (task.update_progress (progressPercent (i + 1) total)) acc written
      | Except.ok (some gs) =>
        scoresLoop env total rest (i + 1)
          (task.update_progress (progressPercent (i + 1) total)) (acc ++ gs) (written ++ [y])

/-- scrape_scores in scraper/scores_scraper.py: a session-opening failure is
wrapped into a DataScrapingError and aborts the pipeline; otherwise the year
loop runs over the 2020-excluded year list, and afterwards AllScores is
written exactly when at least one game was collected. -/
def scrape_scores (env : ScoresEnv) (start_year end_year : Int) (task : Task) : ScoresOut :=
  match env.sessionFails with
  | some m =>
    ScoresOut.mk
      (Except.error (PyError.dataScraping ("Network error during score scraping: " ++ m)))
      task [] false
  | none =>
    match scoresLoop env (total_years start_year end_year)
        (years_to_process start_year end_year) 0 task [] [] with
    | (Except.ok _, task2, acc, written) =>
      ScoresOut.mk (Except.ok ()) task2 written (!acc.isEmpty)
    | (Except.error err, task2, _, written) =>
      ScoresOut.mk (Except.error err) task2 written false

/-- A scrape environment in which every year returns empty tables. -/
def emptyYearsEnv : ScrapeEnv :=
  ScrapeEnv.mk none (fun _ => YearResult.emptyData) (fun _ => false)

/-- A scores environment in which every year returns an empty game list. -/
def emptyScoresEnv : ScoresEnv :=
  ScoresEnv.mk none (fun _ => Except.ok []) (fun _ => false) (fun _ => false)

/-- A scrape environment whose session opening fails. -/
def failSessionEnv : ScrapeEnv :=
  ScrapeEnv.mk (some "boom") (fun _ => YearResult.emptyData) (fun _ => false)

/-- C1, counterexample: the claim that every status mutation after
cancellation leaves the status Cancelled is false: cancel() moves a fresh
task to Cancelled, but a subsequent start() moves it back to Running, since
Task.start carries no status guard. -/
theorem c1_cancel_then_start_runs :
    (Task.cancel newTask 0).status = TaskStatus.cancelled ∧
    ((Task.cancel newTask 0).start 5).status = TaskStatus.running := by
  exact ⟨rfl, rfl⟩

/-- C1, amended: after cancel() has set the status to Cancelled, complete()
and update_progress() are no-ops that leave the whole task unchanged, but
start() is unguarded: it sets the status of any task, Cancelled included,
to Running. -/
theorem c1_cancellation_sticky_except_start (t : Task)
    (h : t.status = TaskStatus.cancelled) (s : Bool) (e : Option String)
    (now p n2 : Int) :
    t.complete s e now = t ∧ t.update_progress p = t ∧
    (t.start n2).status = TaskStatus.running := by
  refine ⟨?_, ?_, rfl⟩
  · simp [Task.complete, h]
  · simp [Task.update_progress, h]

/-- C1, witness: the amended theorem applied to a concretely cancelled task. -/
theorem c1_cancellation_sticky_except_start_witness :
    (Task.cancel newTask 0).complete true none 7 = Task.cancel newTask 0 ∧
    (Task.cancel newTask 0).update_progress 42 = Task.cancel newTask 0 ∧
    ((Task.cancel newTask 0).start 9).status = TaskStatus.running :=
  c1_cancellation_sticky_except_start (Task.cancel newTask 0) rfl true none 7 42 9

/-- C2, counterexample: the claim that no transition other than one ending in
Success sets progress to 100 is false: complete(success=False) on a fresh task
ends in Failure and still sets progress to exactly 100. -/
theorem c2_failure_also_sets_100 :
    (newTask.complete false none 0).status = TaskStatus.failure ∧
    (newTask.complete false none 0).progress = 100 := by
  exact ⟨rfl, rfl⟩

/-- C2, amended: while the status is not Cancelled, update_progress clamps its
input into the 0 to 99 range exactly as claimed, and complete always forces
progress to exactly 100 regardless of prior value, for the Failure outcome as
well as the Success outcome. -/
theorem c2_progress_clamped (t : Task) (h : t.status ≠ TaskStatus.cancelled)
    (p : Int) (s : Bool) (e : Option String) (now : Int) :
    (t.update_progress p).progress = (if p < 0 then 0 else if 99 < p then 99 else p) ∧
    (t.complete s e now).progress = 100 ∧
    (t.complete true e now).status = TaskStatus.success ∧
    (t.complete false e now).status = TaskStatus.failure := by
  refine ⟨?_, ?_, ?_, ?_⟩
  · simp only [Task.update_progress, if_pos h]
    simp only [min_def, max_def]
    split_ifs <;> omega
  · simp [Task.complete, h]
  · simp [Task.complete, h]
  · simp [Task.complete, h]

/-- C2, witness: the amended theorem applied to a fresh (Pending) task. -/
theorem c2_progress_clamped_witness :
    (newTask.update_progress 150).progress = 99 ∧
    (newTask.complete false none 3).progress = 100 := by
  have h := c2_progress_clamped newTask (by decide) 150 false none 3
  exact ⟨by rw [h.1]; decide, h.2.1⟩

/-- C5, counterexample: the claim that sweep never removes a Running task is
false on reachable registry states: cancel() followed by start() leaves a task
Running with the stale completion timestamp set by cancel(), and
cleanup_old_tasks deletes it once that timestamp is over an hour old. -/
theorem c5_sweep_removes_running_task :
    (applyOps newTask [TaskOp.opCancel 0, TaskOp.opStart 5]).status = TaskStatus.running ∧
    cleanup_old_tasks 4000 [("a", applyOps newTask [TaskOp.opCancel 0, TaskOp.opStart 5])] = [] := by
  exact ⟨rfl, rfl⟩

/-- C5, amended: cleanup_old_tasks keeps an entry if and only if the task is
not expired, and a task is expired exactly when its completion timestamp is
non-null and more than 3600 seconds before the current time; the status of the
task is never consulted, so any task carrying a stale completion timestamp is
removed, whatever its status. -/
theorem c5_sweep_characterisation (now : Int) (reg : List (String × Task))
    (tid : String) (t : Task) :
    ((tid, t) ∈ cleanup_old_tasks now reg ↔ (tid, t) ∈ reg ∧ taskExpired now t = false) ∧
    (taskExpired now t = true ↔ ∃ c, t.completed_at = some c ∧ now - c > 3600) := by
  constructor
  · simp [cleanup_old_tasks, List.mem_filter]
  · constructor
    · intro h
      cases hc : t.completed_at with
      | none => simp [taskExpired, hc] at h
      | some c =>
        refine ⟨c, rfl, ?_⟩
        simpa [taskExpired, hc] using h
    · rintro ⟨c, hc, hlt⟩
      simp [taskExpired, hc, hlt]

/-- C10: on a task whose status is Success or Failure (terminal but not
Cancelled), update_progress still overwrites progress with the clamped value
min(99, max(0, p)) and leaves the status unchanged: the guard of
update_progress blocks the update only for the Cancelled status. -/
theorem c10_update_progress_after_completion (t : Task) (p : Int)
    (h : t.status = TaskStatus.success ∨ t.status = TaskStatus.failure) :
    (t.update_progress p).progress = min 99 (max 0 p) ∧
    (t.update_progress p).status = t.status := by
  have hne : t.status ≠ TaskStatus.cancelled := by
    rcases h with h | h <;> simp [h]
  constructor <;> simp [Task.update_progress, hne]

/-- C10, witness: a task completed with Success has progress 100, and a late
update_progress(50) lowers it back to 50. -/
theorem c10_update_progress_after_completion_witness :
    (newTask.complete true none 0).progress = 100 ∧
    ((newTask.complete true none 0).update_progress 50).progress = 50 := by
  have h := c10_update_progress_after_completion (newTask.complete true none 0) 50
    (Or.inl rfl)
  exact ⟨rfl, by rw [h.1]; decide⟩

/-- C3, counterexample: aggregating a year whose Ratings dataset file is
absent fails with the FileNotFoundError that pandas raises for the missing
path, not with a MissingDatasetError; the store is untouched. -/
theorem c3_absent_file_not_missing_dataset :
    (aggregate_year_data c3Store 2021).1 =
      Except.error (AggError.fileNotFound "data/TeamRankingsRatings2021.csv") ∧
    isMissingDatasetResult (aggregate_year_data c3Store 2021) = false ∧
    (aggregate_year_data c3Store 2021).2 = c3Store := by
  refine ⟨rfl, rfl, rfl⟩

/-- C3, amended: aggregate_year_data reads the TRank, Ratings and Stats
datasets in that order; a dataset that reads back with zero rows raises a
MissingDatasetError naming the dataset file and the year, while an absent
dataset file raises the underlying file-not-found read error instead; on any
error no file is written and the store is exactly unchanged; when all three
datasets exist and are non-empty, the result is the two sequential outer
joins on the Team column with every team name rewritten through the name
normalizer, persisted as the Combined dataset of that year (no other file is
touched) and returned. -/
theorem c3_aggregate_year_behaviour (store : Store) (year : Int) :
    (store.lookup (trankFile year) = none →
      aggregate_year_data store year =
        (Except.error (AggError.fileNotFound (DATA_PATH ++ "/" ++ trankFile year)), store)) ∧
    (∀ d1, store.lookup (trankFile year) = some d1 → d1.rows = [] →
      aggregate_year_data store year =
        (Except.error (AggError.missingDataset (missingMsg (trankFile year) year)), store)) ∧
    (∀ d1, store.lookup (trankFile year) = some d1 → d1.rows ≠ [] →
      store.lookup (ratingsFile year) = none →
      aggregate_year_data store year =
        (Except.error (AggError.fileNotFound (DATA_PATH ++ "/" ++ ratingsFile year)), store)) ∧
    (∀ d1 d2, store.lookup (trankFile year) = some d1 → d1.rows ≠ [] →
      store.lookup (ratingsFile year) = some d2 → d2.rows = [] →
      aggregate_year_data store year =
        (Except.error (AggError.missingDataset (missingMsg (ratingsFile year) year)), store)) ∧
    (∀ d1 d2, store.lookup (trankFile year) = some d1 → d1.rows ≠ [] →
      store.lookup (ratingsFile year) = some d2 → d2.rows ≠ [] →
      store.lookup (statsFile year) = none →
      aggregate_year_data store year =
        (Except.error (AggError.fileNotFound (DATA_PATH ++ "/" ++ statsFile year)), store)) ∧
    (∀ d1 d2 d3, store.lookup (trankFile year) = some d1 → d1.rows ≠ [] →
      store.lookup (ratingsFile year) = some d2 → d2.rows ≠ [] →
      store.lookup (statsFile year) = some d3 → d3.rows = [] →
      aggregate_year_data store year =
        (Except.error (AggError.missingDataset (missingMsg (statsFile year) year)), store)) ∧
    (∀ d1 d2 d3, store.lookup (trankFile year) = some d1 → d1.rows ≠ [] →
      store.lookup (ratingsFile year) = some d2 → d2.rows ≠ [] →
      store.lookup (statsFile year) = some d3 → d3.rows ≠ [] →
      aggregate_year_data store year =
        (Except.ok (standardizeTeamColumn (mergeOuter (mergeOuter d1 d2) d3)),
         (combinedFile year, standardizeTeamColumn (mergeOuter (mergeOuter d1 d2) d3)) :: store)) ∧
    (∀ e, (aggregate_year_data store year).1 = Except.error e →
      (aggregate_year_data store year).2 = store) ∧
    (∀ k, k ≠ combinedFile year →
      (aggregate_year_data store year).2.lookup k = store.lookup k) := by
  have hshape : (aggregate_year_data store year).2 = store ∨
      ∃ d, (aggregate_year_data store year).1 = Except.ok d ∧
        (aggregate_year_data store year).2 = (combinedFile year, d) :: store := by
    unfold aggregate_year_data write_df_to_csv
    rcases hr1 : read_df_from_csv store (trankFile year) with e1 | d1
    · simp [hr1]
    · simp only [hr1]
      by_cases h1 : d1.rows.isEmpty
      · simp [h1]
      · simp only [h1, Bool.false_eq_true, if_false]
        rcases hr2 : read_df_from_csv store (ratingsFile year) with e2 | d2
        · simp
        · simp only []
          by_cases h2 : d2.rows.isEmpty
          · simp [h2]
          · simp only [h2, Bool.false_eq_true, if_false]
            rcases hr3 : read_df_from_csv store (statsFile year) with e3 | d3
            · simp
            · simp only []
              by_cases h3 : d3.rows.isEmpty
              · simp [h3]
              · simp only [h3, Bool.false_eq_true, if_false]
                right
                exact ⟨_, rfl, rfl⟩
  refine ⟨?_, ?_, ?_, ?_, ?_, ?_, ?_, ?_, ?_⟩
  · intro h
    simp [aggregate_year_data, read_df_from_csv, h]
  · intro d1 h hrows
    simp [aggregate_year_data, read_df_from_csv, h, hrows, List.isEmpty_iff]
  · intro d1 h hrows h2
    simp [aggregate_year_data, read_df_from_csv, h, h2, List.isEmpty_iff, hrows]
  · intro d1 d2 h hrows h2 hrows2
    simp [aggregate_year_data, read_df_from_csv, h, h2, List.isEmpty_iff, hrows, hrows2]
  · intro d1 d2 h hrows h2 hrows2 h3
    simp [aggregate_year_data, read_df_from_csv, h, h2, h3, List.isEmpty_iff, hrows, hrows2]
  · intro d1 d2 d3 h hrows h2 hrows2 h3 hrows3
    simp [aggregate_year_data, read_df_from_csv, h, h2, h3, List.isEmpty_iff, hrows, hrows2,
      hrows3]
  · intro d1 d2 d3 h hrows h2 hrows2 h3 hrows3
    simp [aggregate_year_data, read_df_from_csv, write_df_to_csv, h, h2, h3, List.isEmpty_iff,
      hrows, hrows2, hrows3]
  · intro e he
    rcases hshape with h | ⟨d, h1, _⟩
    · exact h
    · rw [h1] at he
      exact Except.noConfusion he
  · intro k hk
    rcases hshape with h | ⟨d, _, h2⟩
    · rw [h]
    · rw [h2]
      have hbeq : (k == combinedFile year) = false := beq_eq_false_iff_ne.mpr hk
      simp [List.lookup, hbeq]

/-- C3, witness: the amended theorem applied to a concrete store holding all
three 2021 datasets. -/
theorem c3_aggregate_year_behaviour_witness :
    aggregate_year_data c3FullStore 2021 =
      (Except.ok (standardizeTeamColumn (mergeOuter (mergeOuter nonemptyDF nonemptyDF) nonemptyDF)),
       (combinedFile 2021,
        standardizeTeamColumn (mergeOuter (mergeOuter nonemptyDF nonemptyDF) nonemptyDF))
          :: c3FullStore) := by
  exact (c3_aggregate_year_behaviour c3FullStore 2021).2.2.2.2.2.2.1
    nonemptyDF nonemptyDF nonemptyDF rfl (by decide) rfl (by decide) rfl (by decide)

/-- C6, counterexample: the claim that 2020 is never aggregated is false:
aggregate_all_years iterates the plain inclusive range with no exclusion, so
over the range [2020, 2020] it aggregates 2020 and persists Combined2020. -/
theorem c6_aggregation_processes_2020 :
    ((aggregate_all_years c6Store 2020 2020).2.lookup (combinedFile 2020)).isSome = true ∧
    2020 ∈ pyRange 2020 2020 := by
  refine ⟨rfl, by decide⟩

/-- Helper: pyRange lists exactly the integers of the inclusive range. -/
theorem mem_pyRange (s e y : Int) : y ∈ pyRange s e ↔ s ≤ y ∧ y ≤ e := by
  unfold pyRange
  constructor
  · intro h
    obtain ⟨i, hi, hy⟩ := List.mem_map.mp h
    rw [List.mem_range] at hi
    omega
  · intro h
    refine List.mem_map.mpr ⟨(y - s).toNat, ?_, ?_⟩
    · rw [List.mem_range]; omega
    · omega

/-- Helper: the elements of a list split into those different from a and the
occurrences of a. -/
theorem length_filter_ne_add_count (l : List Int) (a : Int) :
    (l.filter (fun y => y != a)).length + l.count a = l.length := by
  induction l with
  | nil => rfl
  | cons b t ih =>
    by_cases h : b = a
    · subst h
      simp only [List.filter_cons, bne_self_eq_false, Bool.false_eq_true, if_false,
        List.count_cons_self, List.length_cons]
      omega
    · have hb : (b != a) = true := bne_iff_ne.mpr h
      have hb2 : (b == a) = false := beq_eq_false_iff_ne.mpr h
      simp only [List.filter_cons, hb, if_true, List.length_cons, List.count_cons, hb2,
        Bool.false_eq_true, if_false]
      omega

/-- C6, amended: the scraping pipelines exclude 2020 from every inclusive
year range containing it and use the year count after the exclusion as the
progress denominator (total_years is one less than the full range length),
but the aggregator iterates the full range: 2020 is still aggregated. -/
theorem c6_year_2020_exclusion (s e : Int) (h1 : s ≤ 2020) (h2 : 2020 ≤ e) :
    2020 ∉ years_to_process s e ∧
    total_years s e + 1 = (pyRange s e).length ∧
    2020 ∈ pyRange s e := by
  have hmem : (2020 : Int) ∈ pyRange s e := (mem_pyRange s e 2020).mpr ⟨h1, h2⟩
  have hnodup : (pyRange s e).Nodup := by
    unfold pyRange
    refine List.Nodup.map ?_ (List.nodup_range _)
    intro a b hab
    simpa using hab
  refine ⟨?_, ?_, hmem⟩
  · simp [years_to_process, List.mem_filter]
  · have hcount : (pyRange s e).count 2020 = 1 :=
      List.count_eq_one_of_mem hnodup hmem
    have hsplit := length_filter_ne_add_count (pyRange s e) 2020
    simp only [total_years, years_to_process]
    omega

/-- C6, witness: the amended theorem at the concrete range 2019 to 2021. -/
theorem c6_year_2020_exclusion_witness :
    2020 ∉ years_to_process 2019 2021 ∧
    total_years 2019 2021 + 1 = (pyRange 2019 2021).length ∧
    2020 ∈ pyRange 2019 2021 :=
  c6_year_2020_exclusion 2019 2021 (by omega) (by omega)

/-- C8: a game node yields no game unless both team sub-parses succeed (any
returned game records the two successful team parses); with exactly two
children and two parsable teams the game is returned with location None
rather than failing; a well-formed third child (containing a link whose text
starts with the at-space prefix) supplies the location with that prefix
stripped; a malformed third child (no link, or link text without the prefix)
yields location None, not a parse failure. -/
theorem c8_game_location_policy (year : Int) (bid : String) (rnd : Int) (node : DomNode) :
    (∀ g, _parse_game year bid rnd node = some g →
      ∃ c0 c1 rest, node.children = c0 :: c1 :: rest ∧
        _parse_team c0 = some g.team_a ∧ _parse_team c1 = some g.team_b) ∧
    (∀ c0 c1 a b, node.children = [c0, c1] →
      _parse_team c0 = some a → _parse_team c1 = some b →
      _parse_game year bid rnd node = some (GameRec.mk year bid rnd a b none)) ∧
    (∀ c0 c1 c2 rest a b link, node.children = c0 :: c1 :: c2 :: rest →
      _parse_team c0 = some a → _parse_team c1 = some b →
      findTagIn "a" c2.children = some link → pyStartsWith link.text "at " = true →
      _parse_game year bid rnd node =
        some (GameRec.mk year bid rnd a b (some (pyStrip (pyDrop link.text 3))))) ∧
    (∀ c0 c1 c2 rest a b, node.children = c0 :: c1 :: c2 :: rest →
      _parse_team c0 = some a → _parse_team c1 = some b →
      findTagIn "a" c2.children = none →
      _parse_game year bid rnd node = some (GameRec.mk year bid rnd a b none)) ∧
    (∀ c0 c1 c2 rest a b link, node.children = c0 :: c1 :: c2 :: rest →
      _parse_team c0 = some a → _parse_team c1 = some b →
      findTagIn "a" c2.children = some link → pyStartsWith link.text "at " = false →
      _parse_game year bid rnd node = some (GameRec.mk year bid rnd a b none)) := by
  refine ⟨?_, ?_, ?_, ?_, ?_⟩
  · intro g hg
    rcases hch : node.children with _ | ⟨c0, _ | ⟨c1, rest⟩⟩
    · simp [_parse_game, hch] at hg
    · simp [_parse_game, hch] at hg
    · rcases ha : _parse_team c0 with _ | a
      · simp [_parse_game, hch, ha] at hg
      · rcases hb : _parse_team c1 with _ | b
        · simp [_parse_game, hch, ha, hb] at hg
        · simp only [_parse_game, hch, ha, hb, Option.some_inj] at hg
          refine ⟨c0, c1, rest, rfl, ?_, ?_⟩
          · rw [ha, ← hg]
          · rw [hb, ← hg]
  · intro c0 c1 a b hch ha hb
    simp [_parse_game, hch, ha, hb]
  · intro c0 c1 c2 rest a b link hch ha hb hlink hpre
    simp [_parse_game, hch, ha, hb, hlink, hpre]
  · intro c0 c1 c2 rest a b hch ha hb hlink
    simp [_parse_game, hch, ha, hb, hlink]
  · intro c0 c1 c2 rest a b link hch ha hb hlink hpre
    simp [_parse_game, hch, ha, hb, hlink, hpre]

/-- C8, witness: a game node with exactly two well-formed team children
parses to a game with location None. -/
theorem c8_game_location_policy_witness :
    _parse_game 2021 "east" 1 gameNode2 =
      some (GameRec.mk 2021 "east" 1
        (TeamRec.mk (FieldVal.intVal 1) "Duke" (FieldVal.intVal 80) true)
        (TeamRec.mk (FieldVal.intVal 16) "UNC" (FieldVal.intVal 60) false) none) :=
  (c8_game_location_policy 2021 "east" 1 gameNode2).2.1 teamNodeA teamNodeB
    (TeamRec.mk (FieldVal.intVal 1) "Duke" (FieldVal.intVal 80) true)
    (TeamRec.mk (FieldVal.intVal 16) "UNC" (FieldVal.intVal 60) false)
    rfl rfl rfl

/-- C9, counterexample: empty seed and score text are converted to None
(Python null), not kept as-is as empty text, so the claim that a non-numeric
or empty field is kept as text is false; the single-field node still yields
no team, as claimed. -/
theorem c9_empty_fields_become_null :
    _parse_team c9EmptyFieldsNode =
      some (TeamRec.mk FieldVal.null "Duke" FieldVal.null false) ∧
    _parse_team c9EmptyFieldsNode ≠
      some (TeamRec.mk (FieldVal.strVal "") "Duke" (FieldVal.strVal "") false) ∧
    _parse_team c9SeedOnlyNode = none := by
  refine ⟨by decide, by decide, by decide⟩

/-- C9, amended: a team node with fewer than two children yields no team (in
particular a seed-only node), as does one whose name text is empty; with two
or more children and a non-empty name a team is always returned - a
non-numeric or empty seed or score never fails the parse - whose seed (and,
when a third child exists, score) is the converted field text: numeric text
becomes an integer, empty text becomes None (not the empty string kept as
text), and any other text is kept as-is. -/
theorem c9_team_parse (node : DomNode) :
    (node.children.length < 2 → _parse_team node = none) ∧
    (∀ c0 c1 rest, node.children = c0 :: c1 :: rest →
      ((pyStrip c1.text = "" → _parse_team node = none) ∧
       (pyStrip c1.text ≠ "" → ∃ t, _parse_team node = some t ∧
          t.name = pyStrip c1.text ∧
          t.seed = convertNumeric (FieldVal.strVal (pyStrip c0.text)) ∧
          t.won = node.classes.contains "winner" ∧
          (rest = [] → t.score = FieldVal.null) ∧
          (∀ c2 rest2, rest = c2 :: rest2 →
            t.score = convertNumeric (FieldVal.strVal (pyStrip c2.text)))))) ∧
    (∀ s n, pyInt? s = some n → convertNumeric (FieldVal.strVal s) = FieldVal.intVal n) ∧
    (∀ s, s ≠ "" → pyInt? s = none → convertNumeric (FieldVal.strVal s) = FieldVal.strVal s) ∧
    convertNumeric (FieldVal.strVal "") = FieldVal.null := by
  refine ⟨?_, ?_, ?_, ?_, rfl⟩
  · intro hlen
    rcases hch : node.children with _ | ⟨c0, _ | ⟨c1, rest⟩⟩
    · simp [_parse_team, hch]
    · simp [_parse_team, hch]
    · exfalso
      rw [hch] at hlen
      simp only [List.length_cons] at hlen
      omega
  · intro c0 c1 rest hch
    constructor
    · intro hname
      rcases rest with _ | ⟨c2, rest2⟩
      · simp [_parse_team, hch, hname]
      · simp [_parse_team, hch, hname]
    · intro hname
      rcases rest with _ | ⟨c2, rest2⟩
      · have hp : _parse_team node = some (TeamRec.mk
            (convertNumeric (FieldVal.strVal (pyStrip c0.text)))
            (pyStrip c1.text) FieldVal.null (node.classes.contains "winner")) := by
          simp [_parse_team, hch, hname]
        exact ⟨_, hp, rfl, rfl, rfl, fun _ => rfl, fun c2 rest2 h => List.noConfusion h⟩
      · have hp : _parse_team node = some (TeamRec.mk
            (convertNumeric (FieldVal.strVal (pyStrip c0.text)))
            (pyStrip c1.text) (convertNumeric (FieldVal.strVal (pyStrip c2.text)))
            (node.classes.contains "winner")) := by
          simp [_parse_team, hch, hname]
        refine ⟨_, hp, rfl, rfl, rfl, fun h => List.noConfusion h, ?_⟩
        intro c2a rest2a h
        injection h with h1 h2
        rw [← h1]
  · intro s n hn
    have hs : s ≠ "" := by
      intro hempty
      rw [hempty] at hn
      have : pyInt? "" = none := rfl
      rw [this] at hn
      exact Option.noConfusion hn
    simp [convertNumeric, hs, hn]
  · intro s hs hn
    simp [convertNumeric, hs, hn]

/-- C9, witness: the amended theorem applied to the seed-only node. -/
theorem c9_team_parse_witness : _parse_team c9SeedOnlyNode = none :=
  (c9_team_parse c9SeedOnlyNode).1 (by decide)

/-- Helper: the year loop of the generic scraper only ever raises a
TaskCancelledError, whatever the per-year outcomes are. -/
theorem scrapeLoop_error_cancelled (env : ScrapeEnv) (total : Nat) :
    ∀ (years : List Int) (i : Nat) (task : Task) (written : List Int) (err : PyError),
      (scrapeLoop env total years i task written).result = Except.error err →
      ∃ m, err = PyError.taskCancelled m := by
  intro years
  induction years with
  | nil =>
    intro i task written err h
    simp [scrapeLoop] at h
  | cons y rest ih =>
    intro i task written err h
    by_cases hc : env.cancelledBefore i
    · simp [scrapeLoop, hc] at h
      exact ⟨_, h.symm⟩
    · rcases hy : env.yearResult y with _ | _ | m | m | m
      · simp [scrapeLoop, hc, hy] at h
        exact ih _ _ _ _ h
      · simp [scrapeLoop, hc, hy] at h
        exact ih _ _ _ _ h
      · simp [scrapeLoop, hc, hy] at h
        exact ih _ _ _ _ h
      · simp [scrapeLoop, hc, hy] at h
        exact ih _ _ _ _ h
      · simp [scrapeLoop, hc, hy] at h
        exact ⟨m, h.symm⟩

/-- Helper: with no cancellation observed and none raised, the generic year
loop completes normally and the files written are exactly the loop prefix
plus the years whose per-year processing returned True. -/
theorem scrapeLoop_ok_and_written (env : ScrapeEnv) (total : Nat)
    (hcb : ∀ j, env.cancelledBefore j = false)
    (hcs : ∀ y m, env.yearResult y ≠ YearResult.cancelSignal m) :
    ∀ (years : List Int) (i : Nat) (task : Task) (written : List Int),
      (scrapeLoop env total years i task written).result = Except.ok () ∧
      (scrapeLoop env total years i task written).written =
        written ++ years.filter (fun y => (env.yearResult y).isWrote) := by
  intro years
  induction years with
  | nil =>
    intro i task written
    simp [scrapeLoop]
  | cons y rest ih =>
    intro i task written
    rcases hy : env.yearResult y with _ | _ | m | m | m
    · have h := ih (i + 1) (task.update_progress (progressPercent (i + 1) total))
        (written ++ [y])
      simp [scrapeLoop, hcb i, hy, List.filter_cons, YearResult.isWrote] at h ⊢
      rw [h.1, h.2]
      simp
    · have h := ih (i + 1) (task.update_progress (progressPercent (i + 1) total)) written
      simp [scrapeLoop, hcb i, hy, List.filter_cons, YearResult.isWrote] at h ⊢
      rw [h.1, h.2]
      simp
    · have h := ih (i + 1) (task.update_progress (progressPercent (i + 1) total)) written
      simp [scrapeLoop, hcb i, hy, List.filter_cons, YearResult.isWrote] at h ⊢
      rw [h.1, h.2]
      simp
    · have h := ih (i + 1) (task.update_progress (progressPercent (i + 1) total)) written
      simp [scrapeLoop, hcb i, hy, List.filter_cons, YearResult.isWrote] at h ⊢
      rw [h.1, h.2]
      simp
    · exact absurd hy (hcs y m)

/-- Helper: _process_single_year_scores only ever raises a
TaskCancelledError; data and unexpected errors are absorbed as a skipped
year. -/
theorem processScores_error_cancelled (c : Bool) (fetched : Except PyError (List GameRec))
    (err : PyError) (h : processSingleYearScores c fetched = Except.error err) :
    ∃ m, err = PyError.taskCancelled m := by
  by_cases hc : c
  · simp [processSingleYearScores, hc] at h
    exact ⟨_, h.symm⟩
  · rcases fetched with e | gs
    · rcases e with m | m | m
      · simp [processSingleYearScores, hc] at h
      · simp [processSingleYearScores, hc] at h
        exact ⟨m, h.symm⟩
      · simp [processSingleYearScores, hc] at h
    · by_cases hg : gs.isEmpty <;> simp [processSingleYearScores, hc, hg] at h

/-- Helper: the scores year loop only ever raises a TaskCancelledError. -/
theorem scoresLoop_error_cancelled (env : ScoresEnv) (total : Nat) :
    ∀ (years : List Int) (i : Nat) (task : Task) (acc : List GameRec)
      (written : List Int) (err : PyError),
      (scoresLoop env total years i task acc written).1 = Except.error err →
      ∃ m, err = PyError.taskCancelled m := by
  intro years
  induction years with
  | nil =>
    intro i task acc written err h
    simp [scoresLoop] at h
  | cons y rest ih =>
    intro i task acc written err h
    by_cases hc : env.cancelledBefore i
    · simp [scoresLoop, hc] at h
      exact ⟨_, h.symm⟩
    · rcases hp : processSingleYearScores (env.cancelledInner i) (env.yearGames y)
        with e2 | og
      · simp [scoresLoop, hc, hp] at h
        obtain ⟨m, hm⟩ := processScores_error_cancelled _ _ _ hp
        exact ⟨m, h ▸ hm⟩
      · rcases og with _ | gs
        · simp [scoresLoop, hc, hp] at h
          exact ih _ _ _ _ _ h
        · simp [scoresLoop, hc, hp] at h
          exact ih _ _ _ _ _ h

/-- C4: in the Stats/Ratings generic pipeline and in the Bracket-Scores
pipeline, a per-year unrecoverable error is absorbed and the loop continues
with the next year: the whole pipeline can only abort with a
TaskCancelledError or because the session could not be opened at all; with no
session failure and no cancellation the generic pipeline always completes
normally, whatever mixture of failures the individual years produce; and the
per-year scores helper only propagates cancellation. -/
theorem c4_per_year_error_containment :
    (∀ (env : ScrapeEnv) (s e : Int) (task : Task) (err : PyError),
      (_scrape_generic env s e task).result = Except.error err →
      (∃ m, err = PyError.taskCancelled m) ∨ env.sessionFails ≠ none) ∧
    (∀ (env : ScrapeEnv) (s e : Int) (task : Task),
      env.sessionFails = none →
      (∀ j, env.cancelledBefore j = false) →
      (∀ y m, env.yearResult y ≠ YearResult.cancelSignal m) →
      (_scrape_generic env s e task).result = Except.ok ()) ∧
    (∀ (c : Bool) (fetched : Except PyError (List GameRec)) (err : PyError),
      processSingleYearScores c fetched = Except.error err →
      ∃ m, err = PyError.taskCancelled m) ∧
    (∀ (env : ScoresEnv) (s e : Int) (task : Task) (err : PyError),
      (scrape_scores env s e task).result = Except.error err →
      (∃ m, err = PyError.taskCancelled m) ∨ env.sessionFails ≠ none) := by
  refine ⟨?_, ?_, processScores_error_cancelled, ?_⟩
  · intro env s e task err h
    rcases hs : env.sessionFails with _ | m
    · left
      rw [_scrape_generic, hs] at h
      exact scrapeLoop_error_cancelled env _ _ _ _ _ _ h
    · right
      simp [hs]
  · intro env s e task hs hcb hcs
    rw [_scrape_generic, hs]
    exact (scrapeLoop_ok_and_written env _ hcb hcs _ _ _ _).1
  · intro env s e task err h
    rcases hs : env.sessionFails with _ | m
    · left
      rw [scrape_scores, hs] at h
      rcases hl : scoresLoop env (total_years s e) (years_to_process s e) 0 task [] []
        with ⟨r, task2, acc, written⟩
      rcases r with u | uu
      · rw [hl] at h
        simp at h
        obtain ⟨m, hm⟩ := scoresLoop_error_cancelled env (total_years s e)
          (years_to_process s e) 0 task [] [] u (by rw [hl])
        exact ⟨m, h ▸ hm⟩
      · rw [hl] at h
        simp at h
    · right
      simp [hs]

/-- C4, witness: the per-year scores helper raising at the cancellation
checkpoint yields a TaskCancelledError. -/
theorem c4_per_year_error_containment_witness :
    ∃ m, PyError.taskCancelled "Task cancelled before processing scores for year." =
      PyError.taskCancelled m :=
  c4_per_year_error_containment.2.2.1 true (Except.ok [])
    (PyError.taskCancelled "Task cancelled before processing scores for year.") rfl

/-- C7: with no session failure and no cancellation, the generic pipeline
writes exactly the per-year files of the years that produced usable rows,
each written as part of its own loop iteration (in year order), and years
with zero usable rows are skipped without failing; in particular a run over
2008..2011 in which every year yields empty tables writes no files yet the
worker wrapper still marks the task Success with progress 100 and no error,
and the all-empty Bracket-Scores run likewise writes no per-year file and no
AllScores file and completes normally. -/
theorem c7_empty_years_success :
    (∀ (env : ScrapeEnv) (s e : Int) (task : Task),
      env.sessionFails = none →
      (∀ j, env.cancelledBefore j = false) →
      (∀ y m, env.yearResult y ≠ YearResult.cancelSignal m) →
      (_scrape_generic env s e task).written =
        (years_to_process s e).filter (fun y => (env.yearResult y).isWrote)) ∧
    ((run_task_in_thread (fun t => _scrape_generic emptyYearsEnv 2008 2011 t)
        newTask 1 2).1.status = TaskStatus.success ∧
     (run_task_in_thread (fun t => _scrape_generic emptyYearsEnv 2008 2011 t)
        newTask 1 2).1.progress = 100 ∧
     (run_task_in_thread (fun t => _scrape_generic emptyYearsEnv 2008 2011 t)
        newTask 1 2).1.error = none ∧
     (run_task_in_thread (fun t => _scrape_generic emptyYearsEnv 2008 2011 t)
        newTask 1 2).2 = []) ∧
    ((scrape_scores emptyScoresEnv 2008 2011 newTask).result = Except.ok () ∧
     (scrape_scores emptyScoresEnv 2008 2011 newTask).writtenYears = [] ∧
     (scrape_scores emptyScoresEnv 2008 2011 newTask).wroteAllScores = false) := by
  refine ⟨?_, ⟨rfl, rfl, rfl, rfl⟩, ⟨rfl, rfl, rfl⟩⟩
  intro env s e task hs hcb hcs
  rw [_scrape_generic, hs]
  exact (scrapeLoop_ok_and_written env _ hcb hcs _ _ _ _).2

/-- C7, witness: the general written-files characterisation applied to the
all-empty environment over 2008..2011: no file is written. -/
theorem c7_empty_years_success_witness :
    (_scrape_generic emptyYearsEnv 2008 2011 newTask).written = [] := by
  have h := c7_empty_years_success.1 emptyYearsEnv 2008 2011 newTask rfl (fun j => rfl)
    (fun y m => by simp [emptyYearsEnv])
  rw [h]
  rfl

end Scraper
